import Mathlib

/-!
# Verification of the `decide` authentication module

A shallow embedding, in Lean 4, of `src/decide/authentication/views.py`
(login flow with failed-attempt lockout, TOTP two-factor verification,
token-based `getuser`/`logout`/`register` API views), together with
theorems settling the specification's claims about it.

Machine-independent conventions:
* Django model rows become Lean structures; querysets become `List`s.
* Password hashes are abstracted: `set_password`/`check_password` become
  storage and equality of the plain string (the hash is injective for the
  purposes of every claim considered).
* The process-global counter `user_failed_login_attempts` and the user
  table are threaded explicitly through a state record.
* `pyotp.TOTP` is embedded faithfully down to RFC 4226/6238: base32
  decoding, SHA-1, HMAC-SHA-1, dynamic truncation, 30-second time steps,
  and `verify`'s default `valid_window = 0`.
-/

set_option maxRecDepth 100000

namespace DecideAuth

/-- A user row of the `CustomUser` model (`authentication/models.py` is not
part of the analysed sources; the fields are those used by `views.py` and
described by the data model: id, unique username, password hash,
`is_superuser`, `is_blocked`, and the optional TOTP `secret`). -/
structure CUser where
  id : Nat
  username : String
  password : String
  is_superuser : Bool := false
  is_blocked : Bool := false
  secret : Option String := none
  deriving Repr, DecidableEq

/-- A row of `rest_framework.authtoken.models.Token`: an opaque key owned
by a user (foreign key stored as the user id). -/
structure Token where
  key : String
  user : Nat
  deriving Repr, DecidableEq

/-- `CustomUser.objects.get(username=un)` / `UserStore.findByUsername`:
first row with the given username (`none` models `DoesNotExist`). -/
def findUser (users : List CUser) (un : String) : Option CUser :=
  users.find? (fun u => u.username == un)

/-- `CustomUser.objects.get(pk=i)` / `UserStore.findById`. -/
def findById (users : List CUser) (i : Nat) : Option CUser :=
  users.find? (fun u => u.id == i)

/-- `Token.objects.get(key=k)` / `TokenStore.find`. -/
def findToken (tokens : List Token) (k : String) : Option Token :=
  tokens.find? (fun t => t.key == k)

/-! ## Python object comparison

`Custom_loginView.login2` guards on `request.user != 'AnonymousUser'`.
`request.user` is a `User` instance or the `AnonymousUser` instance, never
a `str`; we embed just enough of Python's `!=` semantics to decide that
comparison: `User.__eq__`/`AnonymousUser.__eq__` return
`False`/`NotImplemented` on a non-user argument, and the fallback identity
comparison of a user object with a distinct `str` object is `False`, so
the two sides are never equal. -/

/-- The value of `request.user`: either the `AnonymousUser` instance (no
one authenticated on this request) or an authenticated `CustomUser`. -/
inductive ReqUser where
  | anon
  | auth (u : CUser)
  deriving Repr, DecidableEq

/-- The Python values compared by the guard of `login2`. -/
inductive PyVal where
  | str (s : String)
  | userObj (ru : ReqUser)
  deriving Repr, DecidableEq

/-- Python `==` restricted to the values at hand: strings compare by
contents; user objects compare to user objects by Django's `__eq__`
(primary key for `User`, class membership for `AnonymousUser`); a user
object never equals a string. -/
def pyEq : PyVal → PyVal → Bool
  | .str a, .str b => a == b
  | .userObj .anon, .userObj .anon => true
  | .userObj (.auth a), .userObj (.auth b) => a.id == b.id
  | _, _ => false

/-! ## The login flow (`Custom_loginView.login2`) -/

/-- The authentication state threaded through `login2`: the `CustomUser`
table, the module-level global `user_failed_login_attempts`, and the
configured `AUTH_MAX_FAILED_LOGIN_ATTEMPTS` (`decide/settings.py` is not
part of the analysed sources; the spec requires an integer ≥ 1). -/
structure AuthSt where
  users : List CUser
  counter : Nat
  maxAttempts : Nat
  deriving Repr, DecidableEq

/-- A login request as `login2` reads it: `request.user` and the POSTed
username (`request.POST.get("username")`). -/
structure LoginReq where
  requser : ReqUser
  postUsername : String
  deriving Repr, DecidableEq

/-- The three possible responses of `login2`. -/
inductive Login2Resp where
  | redirectRegistro
  | renderLogin
  | redirectHome
  deriving Repr, DecidableEq

/-- Modelled from the spec: `CustomUser.block_account` (defined in
`authentication/models.py`, which is not among the analysed sources) —
"sets the account's `is_blocked` flag". -/
def block_account (users : List CUser) (un : String) : List CUser :=
  users.map (fun u => if u.username == un then { u with is_blocked := true } else u)

/-- `Custom_loginView.login2`, statement by statement: if
`request.user != 'AnonymousUser'` the failed-attempt branch increments the
global counter and, once it reaches `AUTH_MAX_FAILED_LOGIN_ATTEMPTS`,
blocks the account named in the POST and redirects to `registro`;
otherwise the counter is reset to zero, the session is established and the
response redirects home. -/
def login2 (s : AuthSt) (req : LoginReq) : AuthSt × Login2Resp :=
  if !(pyEq (.userObj req.requser) (.str "AnonymousUser")) then
    let c := s.counter + 1
    if s.maxAttempts ≤ c then
      ({ s with counter := c, users := block_account s.users req.postUsername },
        .redirectRegistro)
    else
      ({ s with counter := c }, .renderLogin)
  else
    ({ s with counter := 0 }, .redirectHome)

/-- Running a list of login requests through `login2`, keeping the state. -/
def runLogin2 (s : AuthSt) (reqs : List LoginReq) : AuthSt :=
  reqs.foldl (fun s r => (login2 s r).1) s

/-- Django's `authenticate` for this backend: resolve the username, check
the password hash, and refuse blocked accounts (the last point is the
spec's "A blocked user cannot authenticate regardless of correct
credentials"; the backend lives outside the analysed sources). An
authentication failure leaves `request.user` anonymous. -/
def authenticate (users : List CUser) (un pw : String) : ReqUser :=
  match findUser users un with
  | none => .anon
  | some u => if u.password == pw && !u.is_blocked then .auth u else .anon

/-- One call of `login2` on a credential pair: `request.user` is whatever
`authenticate` produced for the POSTed credentials. -/
def loginAttempt (s : AuthSt) (un pw : String) : AuthSt × Login2Resp :=
  login2 s { requser := authenticate s.users un pw, postUsername := un }

/-- A run of credential-pair login attempts, keeping the state. -/
def runAttempts (s : AuthSt) (creds : List (String × String)) : AuthSt :=
  creds.foldl (fun s c => (loginAttempt s c.1 c.2).1) s

/-- Modelled from the spec: `AuthenticationService.login`'s result
classification (the REST login endpoint issuing tokens is not among the
analysed sources). Unknown username or password mismatch →
`InvalidCredentials`; correct credentials on a blocked account →
`AccountLocked`; correct credentials with a TOTP secret present →
`PendingTwoFactor`; otherwise a token is issued. -/
inductive LoginResult where
  | invalidCredentials
  | accountLocked
  | pendingTwoFactor (user_id : Nat)
  | tokenIssued (user_id : Nat)
  deriving Repr, DecidableEq

/-- Python truthiness of the `secret` field (`hasattr(user, 'secret') and
user.secret`): present and non-empty. -/
def secretTruthy : Option String → Bool
  | none => false
  | some s => s ≠ ""

/-- Modelled from the spec: the outcome of `AuthenticationService.login`
for a credential pair against the current user table. -/
def loginOutcome (users : List CUser) (un pw : String) : LoginResult :=
  match findUser users un with
  | none => .invalidCredentials
  | some u =>
      if u.password ≠ pw then .invalidCredentials
      else if u.is_blocked then .accountLocked
      else if secretTruthy u.secret then .pendingTwoFactor u.id
      else .tokenIssued u.id

/-- Modelled from the spec: the token-issuing login path of
`AuthenticationService.login` (the REST endpoint that mints tokens is not
among the analysed sources) — for a found, password-matching, unblocked
user with no 2FA secret, "issue a fresh Token (random, unique, bound to
user)"; `newKey` is that fresh key, and the updated token store is
returned (`none` on any login failure or pending 2FA). -/
def loginIssueToken (users : List CUser) (tokens : List Token) (un pw newKey : String) :
    Option (List Token) :=
  match findUser users un with
  | none => none
  | some u =>
      if u.password == pw && !u.is_blocked && !secretTruthy u.secret then
        some (tokens ++ [{ key := newKey, user := u.id }])
      else none

/-! ## `pyotp.TOTP` (RFC 4226 / RFC 6238)

`comprobarqr` calls `pyotp.TOTP(user.secret).verify(codigo)`. We embed the
library down to the hash: bytes are `Nat`s < 256, 32-bit words are `Nat`s
reduced modulo `2^32`. -/

/-- Reduction to a 32-bit word. -/
def w32 (x : Nat) : Nat := x % 4294967296

/-- 32-bit left rotation. -/
def rotl (n x : Nat) : Nat :=
  w32 (x * 2 ^ n) + x % 2 ^ 32 / 2 ^ (32 - n) % 2 ^ n

/-- Value of a base32 alphabet character (RFC 4648: `A`–`Z`, `2`–`7`). -/
def b32Val (c : Char) : Nat :=
  if 'A' ≤ c ∧ c ≤ 'Z' then c.toNat - 65
  else if 'a' ≤ c ∧ c ≤ 'z' then c.toNat - 97
  else if '2' ≤ c ∧ c ≤ '7' then c.toNat - 50 + 26
  else 0

/-- Fold base32 characters into a bit accumulator, emitting a byte each
time eight bits are available (`base64.b32decode` with `casefold=True`, as
`pyotp` calls it, on padding-free input). -/
def b32Bytes : List Char → Nat → Nat → List Nat
  | [], _, _ => []
  | c :: cs, acc, bits =>
      let acc' := acc * 32 + b32Val c
      let bits' := bits + 5
      if 8 ≤ bits' then
        acc' / 2 ^ (bits' - 8) % 256 :: b32Bytes cs (acc' % 2 ^ (bits' - 8)) (bits' - 8)
      else
        b32Bytes cs acc' bits'

/-- `base64.b32decode(secret, casefold=True)`: the secret's bytes. -/
def base32Decode (secret : String) : List Nat :=
  b32Bytes secret.data 0 0

/-- Split a byte list into 64-byte blocks of 16 big-endian 32-bit words. -/
def toWords : List Nat → List Nat
  | b0 :: b1 :: b2 :: b3 :: rest =>
      (((b0 * 256 + b1) * 256 + b2) * 256 + b3) :: toWords rest
  | _ => []

/-- SHA-1 big-endian length-and-`0x80` padding of a byte string. -/
def sha1Pad (msg : List Nat) : List Nat :=
  let l := msg.length
  let zeros := (119 - l % 64) % 64
  msg ++ [128] ++ List.replicate zeros 0 ++
    (List.range 8).map (fun i => l * 8 / 2 ^ (8 * (7 - i)) % 256)

/-- The SHA-1 round function `f` for round `t`. -/
def sha1F (t b c d : Nat) : Nat :=
  if t < 20 then (b &&& c) ||| ((2 ^ 32 - 1 - b) &&& d)
  else if t < 40 then b ^^^ c ^^^ d
  else if t < 60 then (b &&& c) ||| (b &&& d) ||| (c &&& d)
  else b ^^^ c ^^^ d

/-- The SHA-1 round constant `K` for round `t`. -/
def sha1K (t : Nat) : Nat :=
  if t < 20 then 1518500249
  else if t < 40 then 1859775393
  else if t < 60 then 2400959708
  else 3395469782

/-- Message-schedule expansion: word `t` of the 80-word schedule of one
block (`w` holds words `t-16 … t-1`, most recent last). -/
def sha1Expand (w : List Nat) : Nat :=
  rotl 1 ((w.getD 0 0) ^^^ (w.getD 2 0) ^^^ (w.getD 8 0) ^^^ (w.getD 13 0))

/-- The SHA-1 rounds `t, t+1, …` over one block, `rounds` of them in all;
`w` is the sliding 16-word window of the message schedule. -/
def sha1Rounds (t : Nat) : Nat → List Nat → Nat × Nat × Nat × Nat × Nat → Nat × Nat × Nat × Nat × Nat
  | 0, _, st => st
  | rounds + 1, w, (a, b, c, d, e) =>
      let wt := if t < 16 then w.getD t 0 else sha1Expand (w.drop (t - 16))
      let w' := if t < 16 then w else w ++ [wt]
      let temp := w32 (rotl 5 a + sha1F t b c d + e + sha1K t + wt)
      sha1Rounds (t + 1) rounds w' (temp, a, rotl 30 b, c, d)

/-- Compression of the padded word stream, one 16-word block at a time
(the stream's length is a multiple of 16 by construction). -/
def sha1Blocks : List Nat → Nat × Nat × Nat × Nat × Nat → Nat × Nat × Nat × Nat × Nat
  | w0 :: w1 :: w2 :: w3 :: w4 :: w5 :: w6 :: w7 ::
      w8 :: w9 :: w10 :: w11 :: w12 :: w13 :: w14 :: w15 :: rest, (h0, h1, h2, h3, h4) =>
      let block := [w0, w1, w2, w3, w4, w5, w6, w7, w8, w9, w10, w11, w12, w13, w14, w15]
      let (a, b, c, d, e) := sha1Rounds 0 80 block (h0, h1, h2, h3, h4)
      sha1Blocks rest
        (w32 (h0 + a), w32 (h1 + b), w32 (h2 + c), w32 (h3 + d), w32 (h4 + e))
  | _, h => h

/-- Big-endian bytes of a 32-bit word. -/
def wordBytes (x : Nat) : List Nat :=
  [x / 2 ^ 24 % 256, x / 2 ^ 16 % 256, x / 2 ^ 8 % 256, x % 256]

/-- SHA-1 of a byte string, as its 20-byte digest. -/
def sha1 (msg : List Nat) : List Nat :=
  let (h0, h1, h2, h3, h4) :=
    sha1Blocks (toWords (sha1Pad msg))
      (1732584193, 4023233417, 2562383102, 271733878, 3285377520)
  wordBytes h0 ++ wordBytes h1 ++ wordBytes h2 ++ wordBytes h3 ++ wordBytes h4

/-- HMAC-SHA-1 (RFC 2104): pad the key to the 64-byte block, inner hash
with `0x36`-xored key, outer hash with `0x5c`-xored key. -/
def hmacSha1 (key msg : List Nat) : List Nat :=
  let k := if 64 < key.length then sha1 key else key
  let k0 := k ++ List.replicate (64 - k.length) 0
  sha1 ((k0.map (· ^^^ 92)) ++ sha1 ((k0.map (· ^^^ 54)) ++ msg))

/-- `pyotp.utils.int_to_bytestring`: the 8-byte big-endian counter. -/
def counterBytes (c : Nat) : List Nat :=
  (List.range 8).map (fun i => c / 2 ^ (8 * (7 - i)) % 256)

/-- `OTP.generate_otp`: HMAC-SHA-1 of the counter under the decoded
secret, dynamic truncation, reduced to 6 digits. -/
def hotp (secretBytes : List Nat) (counter : Nat) : Nat :=
  let hmac := hmacSha1 secretBytes (counterBytes counter)
  let offset := hmac.getD 19 0 &&& 15
  ((hmac.getD offset 0 &&& 127) * 2 ^ 24 + hmac.getD (offset + 1) 0 * 2 ^ 16 +
    hmac.getD (offset + 2) 0 * 2 ^ 8 + hmac.getD (offset + 3) 0) % 10 ^ 6

/-- `TOTP.timecode`: the 30-second step counter for a Unix time. -/
def timecode (t : Nat) : Nat := t / 30

/-- `TOTP.at(t)`: the code the standard TOTP algorithm produces for the
base32 `secret` at time `t`. -/
def totpAt (secret : String) (t : Nat) : Nat :=
  hotp (base32Decode secret) (timecode t)

/-- `pyotp.TOTP(secret).verify(otp)` at current time `t`, with the
library's default `valid_window = 0`: a constant-time comparison of the
submitted code against the code for the current window only. -/
def totpVerify (secret : String) (otp : Nat) (t : Nat) : Bool :=
  otp == totpAt secret t

/-! ## The two-factor gate (`Custom_loginView.get_success_url`, `comprobarqr`) -/

/-- Where the login view sends a successfully authenticated user, and
whether the just-established session survives. -/
inductive SuccessUrl where
  | comprobarqrUrl (user_id : Nat)
  | defaultUrl
  deriving Repr, DecidableEq

/-- `Custom_loginView.get_success_url`: if the user has a truthy `secret`
the session is logged out and the redirect goes to `comprobarqr` with the
user's id; otherwise the framework default target is used. -/
def get_success_url (u : CUser) : SuccessUrl :=
  if secretTruthy u.secret then .comprobarqrUrl u.id else .defaultUrl

/-- The observable outcome of one full credential login through the login
view (`LoginView.form_valid`: authenticate, establish the session, then
redirect to `get_success_url`, which tears the session down again on the
2FA path). `sessionUser` is who ends up logged in; `tokens` is the token
store, which this flow never touches. -/
structure FlowOut where
  url : Option SuccessUrl
  sessionUser : Option Nat
  tokens : List Token
  deriving Repr, DecidableEq

/-- One credential login through `Custom_loginView` against user table
`users` and token store `tokens`: on bad credentials no redirect and no
session; on good credentials with a truthy `secret`, redirect to
`comprobarqr` and `logout(self.request)` leaves no session; otherwise the
session stands. No branch creates or deletes a token. -/
def customLoginFlow (users : List CUser) (tokens : List Token) (un pw : String) : FlowOut :=
  match authenticate users un pw with
  | .anon => { url := none, sessionUser := none, tokens := tokens }
  | .auth u =>
      match get_success_url u with
      | .comprobarqrUrl i => { url := some (.comprobarqrUrl i), sessionUser := none, tokens := tokens }
      | .defaultUrl => { url := some .defaultUrl, sessionUser := some u.id, tokens := tokens }

/-- The outcome of a POST to `comprobarqr`: who is logged in afterwards
(`login(request, user)` on a verified code, nobody otherwise) and which
template is rendered. -/
structure CqrOut where
  sessionUser : Option Nat
  renderedHome : Bool
  deriving Repr, DecidableEq

/-- `comprobarqr` on a POST: load the user by primary key, read the
submitted `codigo`, and check it with `pyotp.TOTP(user.secret).verify`; on a
match log the user in and render `home.html`, otherwise render `2fa.html`.
`t` is the current time. (`user.secret` is read unconditionally; the view
is only reached from the 2FA redirect, so the secret is present.) -/
def comprobarqr (users : List CUser) (user_id : Nat) (codigo : Option Nat) (t : Nat) : CqrOut :=
  match findById users user_id with
  | none => { sessionUser := none, renderedHome := false }
  | some u =>
      match u.secret, codigo with
      | some sec, some code =>
          if totpVerify sec code t then { sessionUser := some u.id, renderedHome := true }
          else { sessionUser := none, renderedHome := false }
      | _, _ => { sessionUser := none, renderedHome := false }

/-! ## The token API views (`GetUserView`, `LogoutView`, `RegisterView`) -/

/-- `GetUserView.post`: look the token key up with `get_object_or_404`;
on a hit return the owner's serialized public profile — id and username
(`UserSerializer`; `serializers.py` is not among the analysed sources, the
spec fixes the fields: "id, username — never password hash or secret").
`none` is the 404 `NotFound` response. -/
def getUserView (users : List CUser) (tokens : List Token) (key : String) : Option (Nat × String) :=
  match findToken tokens key with
  | none => none
  | some tk =>
      match findById users tk.user with
      | none => none
      | some u => some (u.id, u.username)

/-- `LogoutView.post`: delete the token row if it exists
(`Token.objects.get` + `delete`, `DoesNotExist` silently passed), and in
every case answer 200 with `{}` — the returned `Bool` is that
unconditional success. -/
def logoutView (tokens : List Token) (key : String) : List Token × Bool :=
  match findToken tokens key with
  | none => (tokens, true)
  | some _ => (tokens.eraseP (fun t => t.key == key), true)

/-- The result of `RegisterView.post`, one constructor per response. -/
inductive RegResult where
  | notFound
  | unauthorized
  | badRequest
  | created (user_pk : Nat) (tokenKey : String)
  deriving Repr, DecidableEq

/-- `CustomUser(username=...)` + `set_password` + `save()`: appending a
fresh row, except that the unique constraint on `username` raises
`IntegrityError` (`none`) when the username is already taken. `newId` is
the id the storage assigns. -/
def createUser (users : List CUser) (un pw : String) (newId : Nat) : Option (List CUser) :=
  if (findUser users un).isSome then none
  else some (users ++ [{ id := newId, username := un, password := pw }])

/-- `RegisterView.post`, check by check in source order: token lookup with
`get_object_or_404` (404), then `is_superuser` (401), then non-emptiness
of `username`/`password` (400), then user creation with `IntegrityError`
mapped to 400; on success a token for the new user is created and 201 is
returned with the new user's pk and token key. The returned stores are
the user table and the token store after the call. -/
def registerView (users : List CUser) (tokens : List Token) (key username pwd : String)
    (newId : Nat) (newKey : String) : RegResult × List CUser × List Token :=
  match findToken tokens key with
  | none => (.notFound, users, tokens)
  | some tk =>
      match findById users tk.user with
      | none => (.notFound, users, tokens)
      | some owner =>
          if !owner.is_superuser then (.unauthorized, users, tokens)
          else if username == "" || pwd == "" then (.badRequest, users, tokens)
          else
            match createUser users username pwd newId with
            | none => (.badRequest, users, tokens)
            | some users' => (.created newId newKey, users', tokens ++ [{ key := newKey, user := newId }])

/-! ## Helper lemmas -/

/-- A Python user object (authenticated or anonymous) never equals a
string. -/
theorem pyEq_userObj_str (ru : ReqUser) (s : String) :
    pyEq (.userObj ru) (.str s) = false := by
  cases ru <;> rfl

/-- Every call of `login2` increments the global failure counter by one:
the guard `request.user != 'AnonymousUser'` holds for every request, so
the resetting branch never runs. -/
theorem login2_counter (s : AuthSt) (req : LoginReq) :
    (login2 s req).1.counter = s.counter + 1 := by
  simp only [login2, pyEq_userObj_str, Bool.not_false, if_true]
  split <;> rfl

/-- `login2` leaves the configured threshold unchanged. -/
theorem login2_maxAttempts (s : AuthSt) (req : LoginReq) :
    (login2 s req).1.maxAttempts = s.maxAttempts := by
  simp only [login2, pyEq_userObj_str, Bool.not_false, if_true]
  split <;> rfl

/-- Below the threshold, `login2` leaves the user table unchanged. -/
theorem login2_users_below (s : AuthSt) (req : LoginReq)
    (h : s.counter + 1 < s.maxAttempts) :
    (login2 s req).1.users = s.users := by
  simp only [login2, pyEq_userObj_str, Bool.not_false, if_true]
  rw [if_neg (by omega)]

/-- At the threshold, `login2` blocks the account named in the POST and
keeps the incremented counter. -/
theorem login2_users_at (s : AuthSt) (req : LoginReq)
    (h : s.maxAttempts ≤ s.counter + 1) :
    (login2 s req).1 =
      { s with counter := s.counter + 1,
               users := block_account s.users req.postUsername } := by
  simp only [login2, pyEq_userObj_str, Bool.not_false, if_true]
  rw [if_pos h]

/-- A run of identical attempts that stays below the threshold only moves
the counter. -/
theorem runAttempts_replicate (s : AuthSt) (un pw : String) (k : Nat)
    (h : s.counter + k < s.maxAttempts) :
    runAttempts s (List.replicate k (un, pw)) = { s with counter := s.counter + k } := by
  induction k generalizing s with
  | zero => simp [runAttempts]
  | succ n ih =>
      rw [List.replicate_succ]
      show runAttempts ((loginAttempt s un pw).1) (List.replicate n (un, pw)) = _
      have h1 : (loginAttempt s un pw).1 = { s with counter := s.counter + 1 } := by
        have hc := login2_counter s { requser := authenticate s.users un pw, postUsername := un }
        have hm := login2_maxAttempts s { requser := authenticate s.users un pw, postUsername := un }
        have hu := login2_users_below s { requser := authenticate s.users un pw, postUsername := un } (by omega)
        cases hs : (login2 s { requser := authenticate s.users un pw, postUsername := un }).1
        simp only [loginAttempt]
        rw [hs]
        rw [hs] at hc hm hu
        simp_all
      rw [h1, ih]
      · show ({ s with counter := s.counter + 1 + n } : AuthSt) = { s with counter := s.counter + (n + 1) }
        congr 1
        omega
      · show s.counter + 1 + n < s.maxAttempts
        omega

/-- `block_account` keeps the first row found for a username, with its
`is_blocked` flag raised. -/
theorem findUser_block_account (users : List CUser) (un : String) (u : CUser)
    (hu : findUser users un = some u) :
    findUser (block_account users un) un = some { u with is_blocked := true } := by
  induction users with
  | nil => simp [findUser] at hu
  | cons x xs ih =>
      have hmap : block_account (x :: xs) un =
          (if x.username == un then { x with is_blocked := true } else x) :: block_account xs un := rfl
      cases hx : (x.username == un) with
      | true =>
          have hxu : x = u := by
            have h2 := hu
            simp only [findUser, List.find?_cons, hx] at h2
            exact Option.some.inj h2
          subst hxu
          rw [hmap, if_pos hx]
          simp only [findUser, List.find?_cons]
          simp [hx]
      | false =>
          have hu' : findUser xs un = some u := by
            have h2 := hu
            simp only [findUser, List.find?_cons, hx] at h2
            exact h2
          rw [hmap, if_neg (by simp [hx])]
          simp only [findUser, List.find?_cons, hx]
          exact ih hu'

/-! ## The claims -/

/-- C9: for every request, `login2` takes the failed-attempt branch and
increments the process-global failure counter: its guard compares the
request's user object against the string literal `'AnonymousUser'`, which
is never equal to a user object, so the branch that resets the counter to
zero and establishes the session (response `redirectHome`) is unreachable
for every input. -/
theorem c9_login2_success_branch_unreachable (s : AuthSt) (req : LoginReq) :
    pyEq (.userObj req.requser) (.str "AnonymousUser") = false ∧
    (login2 s req).1.counter = s.counter + 1 ∧
    (login2 s req).2 ≠ .redirectHome := by
  refine ⟨pyEq_userObj_str _ _, login2_counter s req, ?_⟩
  simp only [login2, pyEq_userObj_str, Bool.not_false, if_true]
  split <;> simp

/-- C1, counterexample to the claim as stated: with
`AUTH_MAX_FAILED_LOGIN_ATTEMPTS = 3`, after exactly three consecutive
failed login attempts for the account `alice` the account is blocked, but
the failed-attempt counter holds 3 — it is NOT reset to zero as the claim
asserts. -/
theorem c1_counterexample :
    findUser (runAttempts ⟨[⟨1, "alice", "pw", false, false, none⟩], 0, 3⟩
        (List.replicate 3 ("alice", "wrong"))).users "alice"
      = some ⟨1, "alice", "pw", false, true, none⟩ ∧
    (runAttempts ⟨[⟨1, "alice", "pw", false, false, none⟩], 0, 3⟩
        (List.replicate 3 ("alice", "wrong"))).counter ≠ 0 := by
  decide

/-- C1 (amended): for an account with a fresh (zero) counter, after
exactly `AUTH_MAX_FAILED_LOGIN_ATTEMPTS` consecutive failed login attempts
for that account the account's `is_blocked` flag is set and that account's
next login attempt, even with correct credentials, yields `AccountLocked`;
however the failed-attempt counter is NOT reset to zero — it is left at
the threshold value (and it is process-global, not per-account). -/
theorem c1_lockout_without_counter_reset (users : List CUser) (un badpw : String)
    (u : CUser) (N : Nat) (s1 : AuthSt)
    (hs1 : s1 = runAttempts ⟨users, 0, N⟩ (List.replicate N (un, badpw)))
    (hN : 1 ≤ N) (hu : findUser users un = some u) (_hbad : u.password ≠ badpw) :
    findUser s1.users un = some { u with is_blocked := true } ∧
    s1.counter = N ∧
    loginOutcome s1.users un u.password = .accountLocked := by
  subst hs1
  obtain ⟨m, rfl⟩ : ∃ m, N = m + 1 := ⟨N - 1, by omega⟩
  rw [List.replicate_succ', runAttempts, List.foldl_append]
  rw [show List.foldl (fun s c => (loginAttempt s c.1 c.2).1)
        { users := users, counter := 0, maxAttempts := m + 1 }
        (List.replicate m (un, badpw))
      = runAttempts { users := users, counter := 0, maxAttempts := m + 1 }
        (List.replicate m (un, badpw)) from rfl]
  rw [runAttempts_replicate _ _ _ _ (by simp)]
  have hstep := login2_users_at
      { users := users, counter := 0 + m, maxAttempts := m + 1 }
      { requser := authenticate users un badpw, postUsername := un } (by simp)
  rw [show List.foldl (fun s c => (loginAttempt s c.1 c.2).1)
        { users := users, counter := 0 + m, maxAttempts := m + 1 } [(un, badpw)]
      = (login2 { users := users, counter := 0 + m, maxAttempts := m + 1 }
          { requser := authenticate users un badpw, postUsername := un }).1 from rfl]
  rw [hstep]
  have hfind := findUser_block_account users un u hu
  refine ⟨hfind, by show 0 + m + 1 = m + 1; omega, ?_⟩
  simp only [loginOutcome, hfind]
  simp

/-- Closed instance of the amended C1: three failed attempts against
`alice`'s account with threshold 3 block the account, leave the counter at
3, and make a further correct-credential login yield `AccountLocked`. -/
theorem c1_lockout_without_counter_reset_witness :
    findUser (runAttempts ⟨[⟨1, "alice", "pw", false, false, none⟩], 0, 3⟩
        (List.replicate 3 ("alice", "wrong"))).users "alice"
      = some ⟨1, "alice", "pw", false, true, none⟩ ∧
    (runAttempts ⟨[⟨1, "alice", "pw", false, false, none⟩], 0, 3⟩
        (List.replicate 3 ("alice", "wrong"))).counter = 3 ∧
    loginOutcome (runAttempts ⟨[⟨1, "alice", "pw", false, false, none⟩], 0, 3⟩
        (List.replicate 3 ("alice", "wrong"))).users "alice" "pw" = .accountLocked :=
  c1_lockout_without_counter_reset
    [⟨1, "alice", "pw", false, false, none⟩] "alice" "wrong"
    ⟨1, "alice", "pw", false, false, none⟩ 3 _ rfl (by decide) (by decide) (by decide)

/-- C2, the code evaluated at the failing input: with threshold 3 and user
`voter1`/`123`, two failed attempts followed by one attempt with CORRECT
credentials (which `authenticate` accepts) nevertheless increments the
counter to 3, routes the request to the failed branch (`redirect
registro`) and blocks `voter1` — instead of resetting the counter to zero
and leaving the account unblocked as the claim (and the code's own
comments) require. -/
theorem c2_success_does_not_reset_in_code :
    authenticate [⟨1, "voter1", "123", false, false, none⟩] "voter1" "123"
      = .auth ⟨1, "voter1", "123", false, false, none⟩ ∧
    (runAttempts ⟨[⟨1, "voter1", "123", false, false, none⟩], 0, 3⟩
        [("voter1", "321"), ("voter1", "321"), ("voter1", "123")]).counter = 3 ∧
    findUser (runAttempts ⟨[⟨1, "voter1", "123", false, false, none⟩], 0, 3⟩
        [("voter1", "321"), ("voter1", "321"), ("voter1", "123")]).users "voter1"
      = some ⟨1, "voter1", "123", false, true, none⟩ := by
  decide

/-- After erasing the first token with a key, no token with that key is
found, provided keys are unique in the store (the database's unique
constraint on `Token.key`). -/
theorem findToken_eraseP (tokens : List Token) (key : String)
    (hnd : (tokens.map Token.key).Nodup) :
    findToken (tokens.eraseP (fun t => t.key == key)) key = none := by
  induction tokens with
  | nil => rfl
  | cons t ts ih =>
      rw [List.map_cons, List.nodup_cons] at hnd
      cases ht : (t.key == key) with
      | true =>
          have hkey : t.key = key := by simpa using ht
          rw [show List.eraseP (fun t => t.key == key) (t :: ts) = ts by
            simp only [List.eraseP_cons, ht, cond_true]]
          rw [findToken, List.find?_eq_none]
          intro x hx hpx
          have : x.key = key := by simpa using hpx
          exact hnd.1 (by rw [hkey, ← this]; exact List.mem_map_of_mem _ hx)
      | false =>
          rw [show List.eraseP (fun t => t.key == key) (t :: ts)
              = t :: List.eraseP (fun t => t.key == key) ts by
            simp only [List.eraseP_cons, ht, cond_false]]
          rw [findToken, show List.find? (fun t => t.key == key)
              (t :: List.eraseP (fun t => t.key == key) ts)
            = List.find? (fun t => t.key == key) (List.eraseP (fun t => t.key == key) ts) by
            simp only [List.find?_cons, ht]]
          exact ih hnd.2

/-- C3: a login with matching password for a user whose TOTP secret is
present does not issue a token: the flow redirects to the
two-factor step naming the user, tears the session down, and leaves the
token store untouched; and the pending two-factor check rejects an
invalid code without logging anybody in (`comprobarqr` never touches the
token store at all — its embedding has no token-store component). -/
theorem c3_pending_two_factor_no_token (users : List CUser) (tokens : List Token)
    (un pw sec : String) (u : CUser) (code t : Nat)
    (hu : findUser users un = some u) (hpw : u.password = pw) (hnb : u.is_blocked = false)
    (hsec : u.secret = some sec) (hne : sec ≠ "")
    (hid : findById users u.id = some u)
    (hbad : totpVerify sec code t = false) :
    customLoginFlow users tokens un pw =
      { url := some (.comprobarqrUrl u.id), sessionUser := none, tokens := tokens } ∧
    comprobarqr users u.id (some code) t = { sessionUser := none, renderedHome := false } := by
  have hauth : authenticate users un pw = .auth u := by
    simp [authenticate, hu, hpw, hnb]
  have hurl : get_success_url u = .comprobarqrUrl u.id := by
    simp [get_success_url, secretTruthy, hsec, hne]
  constructor
  · simp [customLoginFlow, hauth, hurl]
  · simp [comprobarqr, hid, hsec, hbad]

/-- Closed instance of C3: the user `bob` with an enrolled RFC-4226 test
secret logs in with the right password, is redirected to the 2FA step
with no session and no token, and the (one-window-off) code 287082 is
rejected at time 10. -/
theorem c3_pending_two_factor_no_token_witness :
    customLoginFlow [⟨7, "bob", "pw", false, false, some "GEZDGNBVGY3TQOJQGEZDGNBVGY3TQOJQ"⟩]
        [] "bob" "pw" = { url := some (.comprobarqrUrl 7), sessionUser := none, tokens := [] } ∧
    comprobarqr [⟨7, "bob", "pw", false, false, some "GEZDGNBVGY3TQOJQGEZDGNBVGY3TQOJQ"⟩]
        7 (some 287082) 10 = { sessionUser := none, renderedHome := false } :=
  c3_pending_two_factor_no_token
    [⟨7, "bob", "pw", false, false, some "GEZDGNBVGY3TQOJQGEZDGNBVGY3TQOJQ"⟩] []
    "bob" "pw" "GEZDGNBVGY3TQOJQGEZDGNBVGY3TQOJQ"
    ⟨7, "bob", "pw", false, false, some "GEZDGNBVGY3TQOJQGEZDGNBVGY3TQOJQ"⟩ 287082 10
    (by decide) (by decide) (by decide) (by decide) (by decide) (by decide) rfl

/-- C4: for a valid credential pair of a non-blocked user with no 2FA
secret, login issues a token bound to the user, and `getUser` applied
immediately to that token returns the same user's id and username. -/
theorem c4_login_then_getuser (users : List CUser) (tokens : List Token)
    (un pw newKey : String) (u : CUser)
    (hu : findUser users un = some u) (hpw : u.password = pw) (hnb : u.is_blocked = false)
    (hsec : secretTruthy u.secret = false)
    (hid : findById users u.id = some u)
    (hfresh : findToken tokens newKey = none) :
    loginIssueToken users tokens un pw newKey
      = some (tokens ++ [{ key := newKey, user := u.id }]) ∧
    getUserView users (tokens ++ [{ key := newKey, user := u.id }]) newKey
      = some (u.id, u.username) := by
  constructor
  · simp [loginIssueToken, hu, hpw, hnb, hsec]
  · rw [getUserView, findToken, List.find?_append]
    rw [findToken] at hfresh
    rw [hfresh]
    simp [hid]

/-- Closed instance of C4: `voter1` logs in and `getUser` on the fresh
token answers id 1 and username `voter1`. -/
theorem c4_login_then_getuser_witness :
    loginIssueToken [⟨1, "voter1", "123", false, false, none⟩] [] "voter1" "123" "tok1"
      = some [{ key := "tok1", user := 1 }] ∧
    getUserView [⟨1, "voter1", "123", false, false, none⟩] [{ key := "tok1", user := 1 }] "tok1"
      = some (1, "voter1") :=
  c4_login_then_getuser [⟨1, "voter1", "123", false, false, none⟩] []
    "voter1" "123" "tok1" ⟨1, "voter1", "123", false, false, none⟩
    (by decide) (by decide) (by decide) (by decide) (by decide) (by decide)

/-- C5: `logout` always answers success — also for an absent token, which
is a no-op rather than an error — and after it the token no longer
resolves: `getUser` on the logged-out token yields `NotFound`, and a
second `logout` of the same key is a success no-op. Keys are unique in
the token store (database unique constraint). -/
theorem c5_logout_idempotent_then_notfound (users : List CUser) (tokens : List Token)
    (key : String) (hnd : (tokens.map Token.key).Nodup) :
    (logoutView tokens key).2 = true ∧
    getUserView users (logoutView tokens key).1 key = none ∧
    logoutView (logoutView tokens key).1 key = ((logoutView tokens key).1, true) := by
  cases hft : findToken tokens key with
  | none =>
      have h1 : logoutView tokens key = (tokens, true) := by rw [logoutView, hft]
      rw [h1]
      exact ⟨rfl, by simp [getUserView, hft], by rw [logoutView, hft]⟩
  | some tk =>
      have h1 : logoutView tokens key = (tokens.eraseP (fun t => t.key == key), true) := by
        rw [logoutView, hft]
      have h2 := findToken_eraseP tokens key hnd
      rw [h1]
      exact ⟨rfl, by simp [getUserView, h2], by rw [logoutView, h2]⟩

/-- Closed instance of C5: logging `tok1` out of a two-token store
succeeds, `getUser tok1` then yields `NotFound`, and a second logout of
`tok1` is a success no-op. -/
theorem c5_logout_idempotent_then_notfound_witness :
    (logoutView [⟨"tok1", 1⟩, ⟨"tok2", 2⟩] "tok1").2 = true ∧
    getUserView [⟨1, "voter1", "123", false, false, none⟩]
      (logoutView [⟨"tok1", 1⟩, ⟨"tok2", 2⟩] "tok1").1 "tok1" = none ∧
    logoutView (logoutView [⟨"tok1", 1⟩, ⟨"tok2", 2⟩] "tok1").1 "tok1"
      = ((logoutView [⟨"tok1", 1⟩, ⟨"tok2", 2⟩] "tok1").1, true) :=
  c5_logout_idempotent_then_notfound [⟨1, "voter1", "123", false, false, none⟩]
    [⟨"tok1", 1⟩, ⟨"tok2", 2⟩] "tok1" (by decide)

/-- C6, counterexample to the claim as stated: the code generated by the
standard TOTP algorithm for the adjacent 30-second window (time 40, one
step after time 10) differs from the current code and is REJECTED by the
code's verification (`pyotp` default `valid_window = 0`), where the claim
asserts a ±1-step tolerance would accept it. -/
theorem c6_counterexample :
    timecode 40 = timecode 10 + 1 ∧
    totpAt "GEZDGNBVGY3TQOJQGEZDGNBVGY3TQOJQ" 40
      ≠ totpAt "GEZDGNBVGY3TQOJQGEZDGNBVGY3TQOJQ" 10 ∧
    totpVerify "GEZDGNBVGY3TQOJQGEZDGNBVGY3TQOJQ"
      (totpAt "GEZDGNBVGY3TQOJQGEZDGNBVGY3TQOJQ" 40) 10 = false := by
  refine ⟨rfl, ?_, rfl⟩
  rw [show totpAt "GEZDGNBVGY3TQOJQGEZDGNBVGY3TQOJQ" 40 = 287082 from rfl,
    show totpAt "GEZDGNBVGY3TQOJQGEZDGNBVGY3TQOJQ" 10 = 755224 from rfl]
  decide

/-- C6 (amended): two-factor verification accepts exactly the code the
standard TOTP algorithm produces for the current 30-second window
(`pyotp`'s default `valid_window = 0`, no adjacent-window tolerance): a
code generated for the current time `t` is accepted, and a code generated
for any other time — adjacent window included — is rejected whenever it
differs from the current window's code. -/
theorem c6_zero_window_verification (secret : String) (t t' : Nat)
    (hne : totpAt secret t' ≠ totpAt secret t) :
    totpVerify secret (totpAt secret t) t = true ∧
    totpVerify secret (totpAt secret t') t = false := by
  constructor
  · simp [totpVerify]
  · simp [totpVerify, hne]

/-- Closed instance of the amended C6: at time 10 the current code 755224
is accepted and the adjacent window's code 287082 is rejected. -/
theorem c6_zero_window_verification_witness :
    totpVerify "GEZDGNBVGY3TQOJQGEZDGNBVGY3TQOJQ" 755224 10 = true ∧
    totpVerify "GEZDGNBVGY3TQOJQGEZDGNBVGY3TQOJQ" 287082 10 = false :=
  c6_zero_window_verification "GEZDGNBVGY3TQOJQGEZDGNBVGY3TQOJQ" 10 40
    (by rw [show totpAt "GEZDGNBVGY3TQOJQGEZDGNBVGY3TQOJQ" 40 = 287082 from rfl,
      show totpAt "GEZDGNBVGY3TQOJQGEZDGNBVGY3TQOJQ" 10 = 755224 from rfl]; decide)

/-- C7: a `register` call whose admin token resolves to a user with
`is_superuser = false` answers `Unauthorized`, whatever the
username/password payload, and creates no user and no token: both stores
come back unchanged. -/
theorem c7_register_nonsuperuser_unauthorized (users : List CUser) (tokens : List Token)
    (key username pwd newKey : String) (newId : Nat) (tk : Token) (owner : CUser)
    (htk : findToken tokens key = some tk)
    (hown : findById users tk.user = some owner)
    (hsup : owner.is_superuser = false) :
    registerView users tokens key username pwd newId newKey
      = (.unauthorized, users, tokens) := by
  simp [registerView, htk, hown, hsup]

/-- Closed instance of C7: `voter1`'s token may not register `user1`. -/
theorem c7_register_nonsuperuser_unauthorized_witness :
    registerView [⟨1, "voter1", "123", false, false, none⟩] [⟨"tok1", 1⟩]
      "tok1" "user1" "pwd1" 2 "tok2"
      = (.unauthorized, [⟨1, "voter1", "123", false, false, none⟩], [⟨"tok1", 1⟩]) :=
  c7_register_nonsuperuser_unauthorized [⟨1, "voter1", "123", false, false, none⟩]
    [⟨"tok1", 1⟩] "tok1" "user1" "pwd1" "tok2" 2 ⟨"tok1", 1⟩
    ⟨1, "voter1", "123", false, false, none⟩ (by decide) (by decide) (by decide)

/-- C8: a `register` call with a superuser token, a non-empty payload and
an already-taken username answers `BadRequest` — the storage
`IntegrityError` is mapped to the domain error — and both stores come
back unchanged, so the pre-existing user record is left unmodified. -/
theorem c8_register_duplicate_username_bad_request (users : List CUser) (tokens : List Token)
    (key username pwd newKey : String) (newId : Nat) (tk : Token) (owner w : CUser)
    (htk : findToken tokens key = some tk)
    (hown : findById users tk.user = some owner)
    (hsup : owner.is_superuser = true)
    (hune : username ≠ "") (hpwe : pwd ≠ "")
    (hdup : findUser users username = some w) :
    registerView users tokens key username pwd newId newKey
      = (.badRequest, users, tokens) := by
  simp [registerView, htk, hown, hsup, hune, hpwe, createUser, hdup]

/-- Closed instance of C8: registering `admin` again under `admin`'s own
superuser token yields `BadRequest` and changes nothing. -/
theorem c8_register_duplicate_username_bad_request_witness :
    registerView [⟨2, "admin", "admin", true, false, none⟩] [⟨"tokA", 2⟩]
      "tokA" "admin" "admin" 3 "tok3"
      = (.badRequest, [⟨2, "admin", "admin", true, false, none⟩], [⟨"tokA", 2⟩]) :=
  c8_register_duplicate_username_bad_request [⟨2, "admin", "admin", true, false, none⟩]
    [⟨"tokA", 2⟩] "tokA" "admin" "admin" "tok3" 3 ⟨"tokA", 2⟩
    ⟨2, "admin", "admin", true, false, none⟩ ⟨2, "admin", "admin", true, false, none⟩
    (by decide) (by decide) (by decide) (by decide) (by decide) (by decide)

/-- C10: `register` checks the admin token before looking at the payload,
so a key that resolves to no stored token answers `NotFound` (404)
whatever the username and password — also when they are empty or
duplicate — and creates nothing: both stores come back unchanged. -/
theorem c10_register_unknown_token_notfound (users : List CUser) (tokens : List Token)
    (key username pwd newKey : String) (newId : Nat)
    (htk : findToken tokens key = none) :
    registerView users tokens key username pwd newId newKey
      = (.notFound, users, tokens) := by
  simp [registerView, htk]

/-- Closed instance of C10: an unknown token key with an empty username
and a duplicate-candidate password still answers `NotFound`. -/
theorem c10_register_unknown_token_notfound_witness :
    registerView [⟨2, "admin", "admin", true, false, none⟩] [⟨"tokA", 2⟩]
      "invented" "" "admin" 3 "tok3"
      = (.notFound, [⟨2, "admin", "admin", true, false, none⟩], [⟨"tokA", 2⟩]) :=
  c10_register_unknown_token_notfound [⟨2, "admin", "admin", true, false, none⟩]
    [⟨"tokA", 2⟩] "invented" "" "admin" "tok3" 3 (by decide)

end DecideAuth
